import Mathlib

/-!
Shallow embedding of `src/static/progress.js` (the `VideoDownloader`
client-side controller of the youtube download page) and proofs about it.

The controller's observable state is modelled as a record of the DOM
fields the script reads and writes, plus the two instance fields
`currentDownloadId` and `progressInterval`.  `setInterval` handles are
modelled by natural numbers drawn from a fresh-counter `nextTimerId`;
a timer tick has an effect only when its handle is the currently
installed one (`progressInterval = some handle`), which models
`clearInterval` semantics.  Network calls are split at the await
boundary: a `...Begin` function performs the synchronous prefix and
returns the HTTP request it would issue (`none` when the code returns
before `fetch`), and separate functions consume the possible responses.
-/

namespace Progress

/-- A `FormatOption` as returned by `/fetch_formats` (spec §3). -/
structure Format where
  format_id : String
  type : String
  resolution : String
  ext : String
  filesize : String
  quality : Int
  deriving Repr, DecidableEq

/-- One rendered `.format-option` row: the format it displays, whether it
carries the `selected` class, and whether its radio input is checked. -/
structure FormatRow where
  format : Format
  selected : Bool
  radioChecked : Bool
  deriving Repr, DecidableEq

/-- The progress JSON returned by `GET /progress/{id}`. -/
structure ProgressMsg where
  status : String
  percent : Int
  speed : String
  filesize : String
  eta : String
  message : String
  filename : String
  deriving Repr, DecidableEq

/-- The DOM fields `progress.js` reads and writes. `*Hidden` mirrors the
`d-none` class, `downloadBtnDisplay` mirrors `downloadBtn.style.display`,
`alertMessage` is the last blocking `alert(...)` text (if any),
`noFormatsWarning` records that `formatsList.innerHTML` was set to the
"No formats available" notice. -/
structure Dom where
  videoInfoCardHidden : Bool
  formatsCardHidden : Bool
  progressCardHidden : Bool
  downloadCompleteHidden : Bool
  downloadErrorHidden : Bool
  progressContentHidden : Bool
  downloadBtnDisabled : Bool
  fetchBtnDisabled : Bool
  downloadBtnDisplay : String
  formatRows : List FormatRow
  noFormatsWarning : Bool
  completedFilename : String
  errorMessage : String
  alertMessage : Option String
  progressPercentText : String
  progressSpeed : String
  fileSize : String
  eta : String
  statusMessage : String
  currentFilename : String
  progressBarColor : String
  deriving Repr, DecidableEq

/-- The whole client state: DOM plus the `VideoDownloader` instance
fields, plus the fresh-handle counter for `setInterval`. -/
structure ClientState where
  dom : Dom
  currentDownloadId : Option String
  progressInterval : Option Nat
  nextTimerId : Nat
  deriving Repr, DecidableEq

/-- Request issued by `fetchFormats`: `POST /fetch_formats` with `{url}`. -/
structure FetchRequest where
  url : String
  deriving Repr, DecidableEq

/-- Request issued by `startDownload`: `POST /download` with
`{url, format_id, type}`. -/
structure DownloadRequest where
  url : String
  format_id : String
  type : String
  deriving Repr, DecidableEq

/-- Whether the first list is a prefix of the second. -/
def isPrefixChars : List Char → List Char → Bool
  | [], _ => true
  | _ :: _, [] => false
  | a :: as, b :: bs => a == b && isPrefixChars as bs

/-- Whether `pat` occurs as a contiguous sublist. -/
def isSubChars (pat : List Char) : List Char → Bool
  | [] => pat.isEmpty
  | b :: bs => isPrefixChars pat (b :: bs) || isSubChars pat bs

/-- JS `String.prototype.includes`: `pat` occurs as a substring of `s`. -/
def jsIncludes (s pat : String) : Bool :=
  isSubChars pat.data s.data

/-- Drop leading whitespace characters. -/
def dropWhileWs : List Char → List Char
  | [] => []
  | c :: cs => if c.isWhitespace then dropWhileWs cs else c :: cs

/-- JS `String.prototype.trim`: strip whitespace from both ends. -/
def jsTrim (s : String) : String :=
  ⟨(dropWhileWs ((dropWhileWs s.data).reverse)).reverse⟩

/-- JS `x || dflt` for strings: the empty string is falsy. -/
def jsOr (s dflt : String) : String :=
  if s = "" then dflt else s

/-- `showError(message)`: `alert` with an `Error: ` prefix (line 327). -/
def showError (msg : String) (d : Dom) : Dom :=
  { d with alertMessage := some ("Error: " ++ msg) }

/-- `resetUI()` (lines 69-77): hide all dynamic sections, un-hide the
progress content pane. -/
def resetUI (d : Dom) : Dom :=
  { d with videoInfoCardHidden := true, formatsCardHidden := true,
           progressCardHidden := true, downloadCompleteHidden := true,
           downloadErrorHidden := true, progressContentHidden := false }

/-- Synchronous prefix of `fetchFormats()` (lines 28-50): trim the URL
field; on empty show an error and return without a request; otherwise
reset the UI, disable the fetch button and issue `POST /fetch_formats`. -/
def fetchFormatsBegin (urlField : String) (s : ClientState) :
    Option FetchRequest × ClientState :=
  let url := jsTrim urlField
  if url = "" then
    (none, { s with dom := showError "Please enter a video URL" s.dom })
  else
    (some ⟨url⟩,
     { s with dom := { resetUI s.dom with fetchBtnDisabled := true } })

/-- `opt.classList.remove('selected')` on every row, together with the
radio-group exclusivity of `name="format"` (checking one radio unchecks
the rest of the group). -/
def clearRows (l : List FormatRow) : List FormatRow :=
  l.map fun r => { r with selected := false, radioChecked := false }

/-- The click handler installed on each format row (lines 158-165):
remove the `selected` class from every row, add it to the clicked row,
and check the clicked row's radio (unchecking the rest of the
`name="format"` group). -/
def clickFormat (i : Nat) (d : Dom) : Dom :=
  match (clearRows d.formatRows).get? i with
  | some r =>
      { d with formatRows :=
          ((clearRows d.formatRows).set i
            { r with selected := true, radioChecked := true }) }
  | none => { d with formatRows := clearRows d.formatRows }

/-- `displayFormats(formats)` (lines 99-126): clear the list; with no
formats show the warning and hide the download button; otherwise show
the button, render one row per format, click the first row, and un-hide
the formats card.  `none` models a missing `formats` field (`!formats`). -/
def displayFormats (formats : Option (List Format)) (d : Dom) : Dom :=
  if formats.getD [] = [] then
    { d with formatRows := [], noFormatsWarning := true,
             downloadBtnDisplay := "none" }
  else
    { clickFormat 0
        { d with noFormatsWarning := false,
                 downloadBtnDisplay := "block",
                 formatRows := (formats.getD []).map fun f =>
                   { format := f, selected := false, radioChecked := false } }
      with formatsCardHidden := false }

/-- `document.querySelector('input[name="format"]:checked')` mapped to
the format it belongs to. -/
def checkedFormat (d : Dom) : Option Format :=
  (d.formatRows.find? fun r => r.radioChecked).map (·.format)

/-- `getDownloadType(formatType)` (lines 248-253). -/
def getDownloadType (formatType : String) : String :=
  if formatType = "audio" || jsIncludes formatType "mp3" then "audio"
  else "video"

/-- Synchronous prefix of `startDownload()` (lines 199-230): with no
checked radio, show an error and return without a request; otherwise
derive the download type from the selected row's `data-type` attribute
(which `createFormatElement` set to `format.type`), show the progress
card, disable the download button, and issue `POST /download`. -/
def startDownloadBegin (urlField : String) (s : ClientState) :
    Option DownloadRequest × ClientState :=
  match checkedFormat s.dom with
  | none => (none, { s with dom := showError "Please select a format" s.dom })
  | some f =>
      let url := jsTrim urlField
      let downloadType := getDownloadType f.type
      let d := { s.dom with progressCardHidden := false,
                            progressContentHidden := false,
                            downloadCompleteHidden := true,
                            downloadErrorHidden := true,
                            downloadBtnDisabled := true }
      (some ⟨url, f.format_id, downloadType⟩, { s with dom := d })

/-- `startProgressTracking()` (lines 255-260): clear any installed
interval and install a fresh one.  Replacing `progressInterval` with a
fresh handle is exactly `clearInterval` followed by `setInterval` in
this model, since ticks only fire for the installed handle. -/
def startProgressTracking (s : ClientState) : ClientState :=
  { s with progressInterval := some s.nextTimerId,
           nextTimerId := s.nextTimerId + 1 }

/-- Success continuation of `startDownload()` (lines 238-239): record
the returned `download_id` and start progress tracking. -/
def startDownloadSuccess (download_id : String) (s : ClientState) : ClientState :=
  startProgressTracking { s with currentDownloadId := some download_id }

/-- `showProgressError(message)` (lines 321-325). -/
def showProgressError (msg : String) (d : Dom) : Dom :=
  { d with progressContentHidden := true, downloadErrorHidden := false,
           errorMessage := msg }

/-- Failure continuation of `startDownload()` (lines 241-245). -/
def startDownloadFailure (msg : String) (s : ClientState) : ClientState :=
  { s with dom :=
      { showProgressError msg s.dom with downloadBtnDisabled := false } }

/-- The progress-bar colour class chosen in lines 303-312 (all four
classes are removed first, so an unknown status leaves no colour). -/
def progressColor (status : String) : String :=
  if status = "downloading" then "bg-primary"
  else if status = "processing" then "bg-warning"
  else if status = "error" then "bg-danger"
  else if status = "completed" then "bg-success"
  else ""

/-- `updateProgressUI(progress)` (lines 287-313). -/
def updateProgressUI (p : ProgressMsg) (d : Dom) : Dom :=
  { d with progressPercentText := toString p.percent ++ "%",
           progressSpeed := p.speed, fileSize := p.filesize, eta := p.eta,
           statusMessage := p.message,
           currentFilename := jsOr p.filename "-",
           progressBarColor := progressColor p.status }

/-- `showDownloadComplete(progress)` (lines 315-319). -/
def showDownloadComplete (p : ProgressMsg) (d : Dom) : Dom :=
  { d with progressContentHidden := true, downloadCompleteHidden := false,
           completedFilename := p.filename }

/-- The HTTP request a tick of timer `handle` issues (lines 260-264):
nothing if the handle was cleared, nothing if no `download_id` is
tracked, otherwise `GET /progress/{id}`. -/
def tickRequest (s : ClientState) (handle : Nat) : Option String :=
  if s.progressInterval = some handle then
    s.currentDownloadId.map fun id => "/progress/" ++ id
  else none

/-- Handling of a successfully parsed progress response inside a tick
(lines 265-279): refresh the progress UI, then on `completed` or `error`
clear the interval, show the terminal view and re-enable the download
button. -/
def pollTickResponse (p : ProgressMsg) (s : ClientState) : ClientState :=
  if p.status = "completed" then
    { s with progressInterval := none,
             dom := { showDownloadComplete p (updateProgressUI p s.dom) with
                      downloadBtnDisabled := false } }
  else if p.status = "error" then
    { s with progressInterval := none,
             dom := { showProgressError p.message (updateProgressUI p s.dom) with
                      downloadBtnDisabled := false } }
  else { s with dom := updateProgressUI p s.dom }

/-- The `catch` branch of a tick (lines 281-283): the error is logged to
the console and nothing else happens. -/
def pollTickFailure (s : ClientState) : ClientState := s

/-- What can happen at one poll tick that made a request: a parsed
response, or a network/parse failure. -/
inductive PollEvent where
  | response (p : ProgressMsg)
  | failure
  deriving Repr, DecidableEq

/-- State after one poll event. -/
def pollStep (s : ClientState) : PollEvent → ClientState
  | .response p => pollTickResponse p s
  | .failure => pollTickFailure s

/-- State after a sequence of poll events. -/
def pollRun (s : ClientState) (evs : List PollEvent) : ClientState :=
  evs.foldl pollStep s

/-- `resetDownload()` (lines 344-348). -/
def resetDownload (s : ClientState) : ClientState :=
  { s with dom := { s.dom with progressCardHidden := true,
                               downloadErrorHidden := true,
                               downloadBtnDisabled := false } }

/-- Number of rows currently carrying the `selected` class. -/
def selectedCount (d : Dom) : Nat :=
  (d.formatRows.filter (·.selected)).length

/-! ### Concrete fixtures used by witnesses and counterexamples -/

/-- The DOM in its initial page state. -/
def dom0 : Dom where
  videoInfoCardHidden := true
  formatsCardHidden := true
  progressCardHidden := true
  downloadCompleteHidden := true
  downloadErrorHidden := true
  progressContentHidden := false
  downloadBtnDisabled := false
  fetchBtnDisabled := false
  downloadBtnDisplay := "none"
  formatRows := []
  noFormatsWarning := false
  completedFilename := ""
  errorMessage := ""
  alertMessage := none
  progressPercentText := ""
  progressSpeed := ""
  fileSize := ""
  eta := ""
  statusMessage := ""
  currentFilename := ""
  progressBarColor := ""

/-- The client state right after page load. -/
def state0 : ClientState where
  dom := dom0
  currentDownloadId := none
  progressInterval := none
  nextTimerId := 0

/-- The 720p format of the spec §8 scenario. -/
def fmt720 : Format where
  format_id := "22"
  type := "video+audio"
  resolution := "720p"
  ext := "mp4"
  filesize := "50MB"
  quality := 720

/-- A format whose identifier contains "mp3" but whose type tag is `video`. -/
def fmtMp3Id : Format where
  format_id := "mp3-128"
  type := "video"
  resolution := "128k"
  ext := "mp3"
  filesize := "5MB"
  quality := 0

/-- State in which `fmtMp3Id` is rendered and its radio is checked. -/
def mp3IdState : ClientState :=
  { state0 with
    dom := { dom0 with
             formatRows := [{ format := fmtMp3Id, selected := true,
                              radioChecked := true }] } }

/-- State in which `fmt720` is checked and download `abc123` is polled by
timer handle `0`. -/
def pollingState : ClientState :=
  { state0 with
    dom := { dom0 with
             formatRows := [{ format := fmt720, selected := true,
                              radioChecked := true }] }
    currentDownloadId := some "abc123"
    progressInterval := some 0
    nextTimerId := 1 }

/-- The completed progress response of the spec §8 scenario. -/
def done720 : ProgressMsg where
  status := "completed"
  percent := 100
  speed := ""
  filesize := "50MB"
  eta := ""
  message := "Download completed"
  filename := "v.mp4"

/-- An error progress response. -/
def errBoom : ProgressMsg where
  status := "error"
  percent := 40
  speed := ""
  filesize := ""
  eta := ""
  message := "boom"
  filename := ""

/-- The request `startDownload` issues from `pollingState`. -/
def req720 : DownloadRequest where
  url := "https://example.com/v"
  format_id := "22"
  type := "video"

/-! ### Helper lemmas -/

/-- `getDownloadType` answers `"audio"` exactly when the type tag is
`"audio"` or the type tag itself contains `"mp3"`. -/
theorem getDownloadType_eq_audio_iff (t : String) :
    getDownloadType t = "audio" ↔ (t = "audio" ∨ jsIncludes t "mp3" = true) := by
  unfold getDownloadType
  split
  next h => exact iff_of_true rfl (by simpa using h)
  next h =>
    refine iff_of_false (by decide) fun hc => h ?_
    simpa using hc

/-- The request emitted by `startDownload` when format `f` is checked. -/
theorem startDownloadBegin_request (url : String) (s : ClientState) (f : Format)
    (hf : checkedFormat s.dom = some f) :
    (startDownloadBegin url s).1 =
      some { url := jsTrim url, format_id := f.format_id,
             type := getDownloadType f.type } := by
  unfold startDownloadBegin
  rw [hf]

/-! ### Claims -/

/-- C1, counterexample: it is not true that the download kind is `audio`
whenever the selected format's identifier string contains `"mp3"` —
`getDownloadType` inspects the `data-type` attribute (the type tag), not
`format_id`, so a checked format with `format_id = "mp3-128"` and type
tag `video` yields kind `video`. -/
theorem c1_identifier_hint_refuted :
    ¬ ∀ (url : String) (s : ClientState) (f : Format) (r : DownloadRequest),
        checkedFormat s.dom = some f →
        (startDownloadBegin url s).1 = some r →
        (r.type = "audio" ↔
          (f.type = "audio" ∨ jsIncludes f.format_id "mp3" = true)) := by
  intro hclaim
  have h := hclaim "https://example.com/v" mp3IdState fmtMp3Id
    { url := "https://example.com/v", format_id := "mp3-128", type := "video" }
    (by decide) (by decide)
  exact absurd (h.mpr (Or.inr (by decide))) (by decide)

/-- C1, amended: for every selected format, `startDownload` derives the
download kind as `audio` exactly when the format's type tag is `audio`
or the type tag string itself contains `"mp3"` (the hint check examines
the type tag, not the format identifier); in particular type `video` and
type `video+audio` both yield `video`. -/
theorem c1_download_kind_from_type_tag (url : String) (s : ClientState)
    (f : Format) (r : DownloadRequest)
    (hf : checkedFormat s.dom = some f)
    (hr : (startDownloadBegin url s).1 = some r) :
    (r.type = "audio" ↔ (f.type = "audio" ∨ jsIncludes f.type "mp3" = true)) ∧
    (f.type = "video" → r.type = "video") ∧
    (f.type = "video+audio" → r.type = "video") := by
  rw [startDownloadBegin_request url s f hf, Option.some_inj] at hr
  subst hr
  refine ⟨getDownloadType_eq_audio_iff f.type, ?_, ?_⟩ <;> intro ht <;>
    simp only [ht] <;> decide

/-- C1, witness: from `pollingState` (type tag `video+audio`) the derived
kind is `video`. -/
theorem c1_download_kind_witness :
    checkedFormat pollingState.dom = some fmt720 ∧
    (startDownloadBegin "https://example.com/v" pollingState).1 = some req720 ∧
    ((req720.type = "audio" ↔
        (fmt720.type = "audio" ∨ jsIncludes fmt720.type "mp3" = true)) ∧
     (fmt720.type = "video" → req720.type = "video") ∧
     (fmt720.type = "video+audio" → req720.type = "video")) :=
  ⟨by decide, by decide,
   c1_download_kind_from_type_tag "https://example.com/v" pollingState fmt720
     req720 (by decide) (by decide)⟩

/-- C2, counterexample: starting a new fetch does not destroy tracking —
from a state tracking `abc123`, `fetchFormats` with a non-empty URL
issues its request yet still tracks `abc123` afterwards. -/
theorem c2_tracking_survives_fetch :
    ¬ ∀ (url : String) (s : ClientState) (id : String),
        s.currentDownloadId = some id →
        ((fetchFormatsBegin url s).1).isSome = true →
        ((fetchFormatsBegin url s).2).currentDownloadId ≠ some id := by
  intro hclaim
  exact hclaim "https://example.com/v" pollingState "abc123"
    (by decide) (by decide) (by decide)

/-- C2, amended: invoking `fetchFormats` leaves the tracked
`download_id` and the polling timer untouched — `resetUI` only hides
view sections, so the previously tracked download is still tracked after
the fetch begins. -/
theorem c2_fetch_preserves_tracking (url : String) (s : ClientState) :
    ((fetchFormatsBegin url s).2).currentDownloadId = s.currentDownloadId ∧
    ((fetchFormatsBegin url s).2).progressInterval = s.progressInterval := by
  by_cases h : jsTrim url = "" <;>
    simp [fetchFormatsBegin, h, showError, resetUI]

/-- One poll event never changes the tracked id and can only keep or
clear the installed timer, never install a new one. -/
theorem pollStep_tracking (s : ClientState) (e : PollEvent) :
    (pollStep s e).currentDownloadId = s.currentDownloadId ∧
    ((pollStep s e).progressInterval = s.progressInterval ∨
     (pollStep s e).progressInterval = none) := by
  cases e with
  | failure => exact ⟨rfl, Or.inl rfl⟩
  | response p =>
      show (pollTickResponse p s).currentDownloadId = s.currentDownloadId ∧
        ((pollTickResponse p s).progressInterval = s.progressInterval ∨
         (pollTickResponse p s).progressInterval = none)
      unfold pollTickResponse
      split
      next => exact ⟨rfl, Or.inr rfl⟩
      next =>
        split
        next => exact ⟨rfl, Or.inr rfl⟩
        next => exact ⟨rfl, Or.inl rfl⟩

/-- A whole run of poll events never changes the tracked id and can only
keep or clear the installed timer. -/
theorem pollRun_tracking (evs : List PollEvent) (s : ClientState) :
    (pollRun s evs).currentDownloadId = s.currentDownloadId ∧
    ((pollRun s evs).progressInterval = s.progressInterval ∨
     (pollRun s evs).progressInterval = none) := by
  induction evs generalizing s with
  | nil => exact ⟨rfl, Or.inl rfl⟩
  | cons e evs ih =>
      have h1 := pollStep_tracking s e
      have h2 := ih (pollStep s e)
      have hrw : pollRun s (e :: evs) = pollRun (pollStep s e) evs := rfl
      rw [hrw]
      refine ⟨h2.1.trans h1.1, ?_⟩
      rcases h2.2 with h | h
      · rw [h]; exact h1.2
      · exact Or.inr h

/-- C3: `startProgressTracking` replaces any previously installed timer
with a fresh handle, so after a second download starts while a first is
polling (via `startDownloadSuccess`), the first download's timer handle
never issues a request again, and every request any later tick issues
targets the second `download_id`'s progress endpoint. -/
theorem c3_second_download_owns_polling (s : ClientState) (t1 : Nat)
    (id2 : String) (evs : List PollEvent) (t : Nat) (r : String)
    (h1 : s.progressInterval = some t1) (hlt : t1 < s.nextTimerId) :
    (startDownloadSuccess id2 s).progressInterval ≠ some t1 ∧
    tickRequest (pollRun (startDownloadSuccess id2 s) evs) t1 = none ∧
    (tickRequest (pollRun (startDownloadSuccess id2 s) evs) t = some r →
      r = "/progress/" ++ id2) := by
  have hne : s.nextTimerId ≠ t1 := ne_of_gt hlt
  have hs2i : (startDownloadSuccess id2 s).progressInterval =
      some s.nextTimerId := rfl
  have hs2c : (startDownloadSuccess id2 s).currentDownloadId = some id2 := rfl
  obtain ⟨hc, hp⟩ := pollRun_tracking evs (startDownloadSuccess id2 s)
  have hnotold : (pollRun (startDownloadSuccess id2 s) evs).progressInterval ≠
      some t1 := by
    rcases hp with h | h
    · rw [h, hs2i]
      exact fun hx => hne (Option.some_inj.mp hx)
    · rw [h]
      exact fun hx => Option.noConfusion hx
  refine ⟨by rw [hs2i]; exact fun hx => hne (Option.some_inj.mp hx), ?_, ?_⟩
  · unfold tickRequest
    rw [if_neg hnotold]
  · intro hreq
    unfold tickRequest at hreq
    split at hreq
    next =>
      rw [hc, hs2c, Option.map_some'] at hreq
      exact (Option.some_inj.mp hreq).symm
    next => exact Option.noConfusion hreq

/-- C3, witness: from `pollingState` (timer handle 0 polling `abc123`),
starting download `def456` clears handle 0; after a failing tick, handle
0 stays dead and handle 1 polls `def456`. -/
theorem c3_second_download_witness :
    (startDownloadSuccess "def456" pollingState).progressInterval ≠ some 0 ∧
    tickRequest (pollRun (startDownloadSuccess "def456" pollingState)
      [PollEvent.failure]) 0 = none ∧
    (tickRequest (pollRun (startDownloadSuccess "def456" pollingState)
      [PollEvent.failure]) 1 = some "/progress/def456" →
      "/progress/def456" = "/progress/" ++ "def456") :=
  c3_second_download_owns_polling pollingState 0 "def456" [PollEvent.failure]
    1 "/progress/def456" (by decide) (by decide)

/-- C4: a poll response with status `completed` stops polling (clears
the interval, so no tick of any handle issues a request), shows the
completion view with the returned filename verbatim, and re-enables the
download button. -/
theorem c4_completed_stops_polling (p : ProgressMsg) (s : ClientState)
    (t : Nat) (h : p.status = "completed") :
    (pollTickResponse p s).progressInterval = none ∧
    tickRequest (pollTickResponse p s) t = none ∧
    (pollTickResponse p s).dom.progressContentHidden = true ∧
    (pollTickResponse p s).dom.downloadCompleteHidden = false ∧
    (pollTickResponse p s).dom.completedFilename = p.filename ∧
    (pollTickResponse p s).dom.downloadBtnDisabled = false := by
  unfold pollTickResponse
  rw [if_pos h]
  refine ⟨rfl, ?_, rfl, rfl, rfl, rfl⟩
  simp [tickRequest]

/-- C4, witness: the completed response of the spec §8 scenario shows
`v.mp4` and stops the `pollingState` loop. -/
theorem c4_completed_witness :
    (pollTickResponse done720 pollingState).progressInterval = none ∧
    tickRequest (pollTickResponse done720 pollingState) 0 = none ∧
    (pollTickResponse done720 pollingState).dom.progressContentHidden = true ∧
    (pollTickResponse done720 pollingState).dom.downloadCompleteHidden = false ∧
    (pollTickResponse done720 pollingState).dom.completedFilename =
      done720.filename ∧
    (pollTickResponse done720 pollingState).dom.downloadBtnDisabled = false :=
  c4_completed_stops_polling done720 pollingState 0 (by decide)

/-- C5: a poll response with status `error` stops polling, shows the
error view with the server-provided message verbatim, and re-enables the
download button. -/
theorem c5_error_stops_polling (p : ProgressMsg) (s : ClientState)
    (t : Nat) (h : p.status = "error") :
    (pollTickResponse p s).progressInterval = none ∧
    tickRequest (pollTickResponse p s) t = none ∧
    (pollTickResponse p s).dom.progressContentHidden = true ∧
    (pollTickResponse p s).dom.downloadErrorHidden = false ∧
    (pollTickResponse p s).dom.errorMessage = p.message ∧
    (pollTickResponse p s).dom.downloadBtnDisabled = false := by
  unfold pollTickResponse
  rw [if_neg (by rw [h]; decide), if_pos h]
  refine ⟨rfl, ?_, rfl, rfl, rfl, rfl⟩
  simp [tickRequest]

/-- C5, witness: an `error` response with message `boom` stops the
`pollingState` loop and displays `boom`. -/
theorem c5_error_witness :
    (pollTickResponse errBoom pollingState).progressInterval = none ∧
    tickRequest (pollTickResponse errBoom pollingState) 0 = none ∧
    (pollTickResponse errBoom pollingState).dom.progressContentHidden = true ∧
    (pollTickResponse errBoom pollingState).dom.downloadErrorHidden = false ∧
    (pollTickResponse errBoom pollingState).dom.errorMessage =
      errBoom.message ∧
    (pollTickResponse errBoom pollingState).dom.downloadBtnDisabled = false :=
  c5_error_stops_polling errBoom pollingState 0 (by decide)

/-- C6: a network/parse failure inside one poll tick changes nothing:
the state (hence the installed timer) is untouched and the timer's next
tick still issues the same progress request. -/
theorem c6_poll_failure_swallowed (s : ClientState) (t : Nat) (id : String)
    (h1 : s.progressInterval = some t) (h2 : s.currentDownloadId = some id) :
    pollTickFailure s = s ∧
    (pollTickFailure s).progressInterval = some t ∧
    tickRequest (pollTickFailure s) t = some ("/progress/" ++ id) := by
  refine ⟨rfl, h1, ?_⟩
  unfold pollTickFailure tickRequest
  rw [if_pos h1, h2, Option.map_some']

/-- C6, witness: a failing tick in `pollingState` leaves handle 0
polling `abc123`. -/
theorem c6_poll_failure_witness :
    pollTickFailure pollingState = pollingState ∧
    (pollTickFailure pollingState).progressInterval = some 0 ∧
    tickRequest (pollTickFailure pollingState) 0 =
      some ("/progress/" ++ "abc123") :=
  c6_poll_failure_swallowed pollingState 0 "abc123" (by decide) (by decide)

/-- C7: local validation failures make no network call: `fetchFormats`
with a URL that trims to empty, and `startDownload` with no checked
format, each show an alert and emit no HTTP request. -/
theorem c7_local_validation_no_request (url1 url2 : String)
    (s1 s2 : ClientState)
    (h1 : jsTrim url1 = "") (h2 : checkedFormat s2.dom = none) :
    (fetchFormatsBegin url1 s1).1 = none ∧
    ((fetchFormatsBegin url1 s1).2).dom.alertMessage =
      some "Error: Please enter a video URL" ∧
    (startDownloadBegin url2 s2).1 = none ∧
    ((startDownloadBegin url2 s2).2).dom.alertMessage =
      some "Error: Please select a format" := by
  refine ⟨?_, ?_, ?_, ?_⟩ <;>
    simp [fetchFormatsBegin, startDownloadBegin, h1, h2, showError]

/-- Every row produced by `clearRows` has its `selected` class removed. -/
theorem clearRows_selected_false (l : List FormatRow) :
    ∀ r ∈ clearRows l, r.selected = false := by
  intro r hr
  rcases List.mem_map.mp hr with ⟨a, _, rfl⟩
  rfl

/-- `clearRows` keeps the number of rows. -/
theorem clearRows_length (l : List FormatRow) :
    (clearRows l).length = l.length :=
  List.length_map l _

/-- Filtering on `selected` over rows that are all deselected gives
nothing. -/
theorem filter_selected_nil (l : List FormatRow)
    (h : ∀ r ∈ l, r.selected = false) :
    l.filter (·.selected) = [] := by
  induction l with
  | nil => rfl
  | cons a tl ih =>
      have ha := h a (List.mem_cons_self a tl)
      simp only [List.filter_cons, ha, Bool.false_eq_true, if_false]
      exact ih fun r hr => h r (List.mem_cons_of_mem a hr)

/-- Setting one selected row into an all-deselected list leaves exactly
that row selected. -/
theorem filter_selected_set (l : List FormatRow) (i : Nat) (r : FormatRow)
    (hall : ∀ x ∈ l, x.selected = false) (hi : i < l.length)
    (hr : r.selected = true) :
    (l.set i r).filter (·.selected) = [r] := by
  induction l generalizing i with
  | nil => simp at hi
  | cons a tl ih =>
      cases i with
      | zero =>
          simp only [List.set, List.filter_cons, hr, if_true]
          rw [filter_selected_nil tl fun x hx => hall x (List.mem_cons_of_mem a hx)]
      | succ j =>
          have ha := hall a (List.mem_cons_self a tl)
          simp only [List.set, List.filter_cons, ha, Bool.false_eq_true, if_false]
          exact ih j (fun x hx => hall x (List.mem_cons_of_mem a hx))
            (by simpa using hi)

/-- `get?` after `set` at the same in-range index. -/
theorem get?_set_self {α : Type} (l : List α) (i : Nat) (r : α)
    (hi : i < l.length) :
    (l.set i r).get? i = some r := by
  induction l generalizing i with
  | nil => simp at hi
  | cons a tl ih =>
      cases i with
      | zero => rfl
      | succ j => simpa using ih j (by simpa using hi)

/-- Clicking an existing row leaves exactly that row selected and
touches nothing else in the DOM. -/
theorem clickFormat_selected (d : Dom) (i : Nat)
    (hi : i < d.formatRows.length) :
    selectedCount (clickFormat i d) = 1 ∧
    ((clickFormat i d).formatRows.get? i).map (·.selected) = some true ∧
    (clickFormat i d).formatRows.length = d.formatRows.length ∧
    (clickFormat i d).downloadBtnDisplay = d.downloadBtnDisplay ∧
    (clickFormat i d).formatsCardHidden = d.formatsCardHidden := by
  have hilen : i < (clearRows d.formatRows).length := by
    rw [clearRows_length]; exact hi
  cases hg : (clearRows d.formatRows).get? i with
  | none =>
      exfalso
      have := List.get?_eq_none.mp hg
      omega
  | some a =>
      unfold clickFormat
      rw [hg]
      refine ⟨?_, ?_, ?_, rfl, rfl⟩
      · unfold selectedCount
        show (((clearRows d.formatRows).set i
          { a with selected := true, radioChecked := true }).filter
            (·.selected)).length = 1
        rw [filter_selected_set (clearRows d.formatRows) i _
          (clearRows_selected_false d.formatRows) hilen rfl]
        rfl
      · show (((clearRows d.formatRows).set i
          { a with selected := true, radioChecked := true }).get? i).map
            (·.selected) = some true
        rw [get?_set_self _ i _ hilen, Option.map_some']
      · show ((clearRows d.formatRows).set i
          { a with selected := true, radioChecked := true }).length =
            d.formatRows.length
        rw [List.length_set, clearRows_length]

/-- With at least one format, `displayFormats` reduces to rendering the
rows, showing the button, clicking row 0 and un-hiding the card. -/
theorem displayFormats_some (fs : List Format) (d : Dom) (hne : fs ≠ []) :
    displayFormats (some fs) d =
      { clickFormat 0
          { d with noFormatsWarning := false,
                   downloadBtnDisplay := "block",
                   formatRows := fs.map fun f =>
                     { format := f, selected := false, radioChecked := false } }
        with formatsCardHidden := false } := by
  unfold displayFormats
  rw [if_neg (by simpa using hne)]
  rfl

/-- C8: for a successful fetch with N ≥ 1 formats, exactly one rendered
row is selected — the first — the download button is shown and the
formats card un-hidden; clicking any existing row `i` afterwards again
leaves exactly one selected row, row `i`. -/
theorem c8_exactly_one_selected (fs : List Format) (d : Dom) (i : Nat)
    (hne : fs ≠ []) (hi : i < fs.length) :
    selectedCount (displayFormats (some fs) d) = 1 ∧
    ((displayFormats (some fs) d).formatRows.get? 0).map (·.selected) =
      some true ∧
    (displayFormats (some fs) d).downloadBtnDisplay = "block" ∧
    (displayFormats (some fs) d).formatsCardHidden = false ∧
    selectedCount (clickFormat i (displayFormats (some fs) d)) = 1 ∧
    ((clickFormat i (displayFormats (some fs) d)).formatRows.get? i).map
      (·.selected) = some true := by
  have hlen0 : 0 < fs.length := List.length_pos.mpr hne
  rw [displayFormats_some fs d hne]
  set d1 : Dom :=
    { d with noFormatsWarning := false,
             downloadBtnDisplay := "block",
             formatRows := fs.map fun f =>
               { format := f, selected := false, radioChecked := false } }
    with hd1
  have hd1len : d1.formatRows.length = fs.length := by
    rw [hd1]; exact List.length_map fs _
  have h0 := clickFormat_selected d1 0 (by omega)
  have hrows : ({ clickFormat 0 d1 with
      formatsCardHidden := false } : Dom).formatRows =
      (clickFormat 0 d1).formatRows := rfl
  have hsel : selectedCount ({ clickFormat 0 d1 with
      formatsCardHidden := false } : Dom) = selectedCount (clickFormat 0 d1) := rfl
  have hlen2 : ({ clickFormat 0 d1 with
      formatsCardHidden := false } : Dom).formatRows.length = fs.length := by
    rw [hrows, h0.2.2.1, hd1len]
  have hi2 := clickFormat_selected
    ({ clickFormat 0 d1 with formatsCardHidden := false } : Dom) i
    (by rw [hlen2]; exact hi)
  refine ⟨?_, ?_, ?_, rfl, hi2.1, hi2.2.1⟩
  · rw [hsel]; exact h0.1
  · rw [hrows]; exact h0.2.1
  · show ({ clickFormat 0 d1 with
      formatsCardHidden := false } : Dom).downloadBtnDisplay = "block"
    have : (clickFormat 0 d1).downloadBtnDisplay = d1.downloadBtnDisplay :=
      h0.2.2.2.1
    rw [show ({ clickFormat 0 d1 with
      formatsCardHidden := false } : Dom).downloadBtnDisplay =
        (clickFormat 0 d1).downloadBtnDisplay from rfl, this]

/-- C8, witness: a two-format response selects the first row, and
clicking row 1 moves the unique selection there. -/
theorem c8_selection_witness :
    selectedCount (displayFormats (some [fmt720, fmtMp3Id]) dom0) = 1 ∧
    ((displayFormats (some [fmt720, fmtMp3Id]) dom0).formatRows.get? 0).map
      (·.selected) = some true ∧
    (displayFormats (some [fmt720, fmtMp3Id]) dom0).downloadBtnDisplay =
      "block" ∧
    (displayFormats (some [fmt720, fmtMp3Id]) dom0).formatsCardHidden =
      false ∧
    selectedCount (clickFormat 1
      (displayFormats (some [fmt720, fmtMp3Id]) dom0)) = 1 ∧
    ((clickFormat 1 (displayFormats
      (some [fmt720, fmtMp3Id]) dom0)).formatRows.get? 1).map (·.selected) =
      some true :=
  c8_exactly_one_selected [fmt720, fmtMp3Id] dom0 1 (by decide) (by decide)

/-- C9: with zero formats (or an absent formats field) the download
button is hidden entirely and no row is rendered — only the warning
notice. -/
theorem c9_zero_formats_dead_end (formats : Option (List Format)) (d : Dom)
    (h : formats.getD [] = []) :
    (displayFormats formats d).downloadBtnDisplay = "none" ∧
    (displayFormats formats d).formatRows = [] ∧
    (displayFormats formats d).noFormatsWarning = true := by
  unfold displayFormats
  rw [if_pos h]
  exact ⟨rfl, rfl, rfl⟩

/-- C9, witness: both an explicit empty list and a missing field hide
the download button and render only the warning. -/
theorem c9_zero_formats_witness :
    ((displayFormats (some []) dom0).downloadBtnDisplay = "none" ∧
     (displayFormats (some []) dom0).formatRows = [] ∧
     (displayFormats (some []) dom0).noFormatsWarning = true) ∧
    ((displayFormats none dom0).downloadBtnDisplay = "none" ∧
     (displayFormats none dom0).formatRows = [] ∧
     (displayFormats none dom0).noFormatsWarning = true) :=
  ⟨c9_zero_formats_dead_end (some []) dom0 (by decide),
   c9_zero_formats_dead_end none dom0 (by decide)⟩

/-- C10: `resetDownload` only hides the progress card and the error
view and re-enables the download button; the tracked `download_id`, the
polling timer and every other DOM field are untouched, so an active
loop's next tick still requests the same download's progress. -/
theorem c10_reset_is_cosmetic (s : ClientState) (t : Nat) (id : String)
    (h1 : s.progressInterval = some t) (h2 : s.currentDownloadId = some id) :
    (resetDownload s).dom.progressCardHidden = true ∧
    (resetDownload s).dom.downloadErrorHidden = true ∧
    (resetDownload s).dom.downloadBtnDisabled = false ∧
    (resetDownload s).currentDownloadId = s.currentDownloadId ∧
    (resetDownload s).progressInterval = s.progressInterval ∧
    (resetDownload s).nextTimerId = s.nextTimerId ∧
    (resetDownload s).dom.videoInfoCardHidden = s.dom.videoInfoCardHidden ∧
    (resetDownload s).dom.formatsCardHidden = s.dom.formatsCardHidden ∧
    (resetDownload s).dom.downloadCompleteHidden =
      s.dom.downloadCompleteHidden ∧
    (resetDownload s).dom.progressContentHidden =
      s.dom.progressContentHidden ∧
    (resetDownload s).dom.fetchBtnDisabled = s.dom.fetchBtnDisabled ∧
    (resetDownload s).dom.downloadBtnDisplay = s.dom.downloadBtnDisplay ∧
    (resetDownload s).dom.formatRows = s.dom.formatRows ∧
    (resetDownload s).dom.noFormatsWarning = s.dom.noFormatsWarning ∧
    (resetDownload s).dom.completedFilename = s.dom.completedFilename ∧
    (resetDownload s).dom.errorMessage = s.dom.errorMessage ∧
    (resetDownload s).dom.alertMessage = s.dom.alertMessage ∧
    (resetDownload s).dom.progressPercentText = s.dom.progressPercentText ∧
    (resetDownload s).dom.progressSpeed = s.dom.progressSpeed ∧
    (resetDownload s).dom.fileSize = s.dom.fileSize ∧
    (resetDownload s).dom.eta = s.dom.eta ∧
    (resetDownload s).dom.statusMessage = s.dom.statusMessage ∧
    (resetDownload s).dom.currentFilename = s.dom.currentFilename ∧
    (resetDownload s).dom.progressBarColor = s.dom.progressBarColor ∧
    tickRequest (resetDownload s) t = some ("/progress/" ++ id) := by
  refine ⟨rfl, rfl, rfl, rfl, rfl, rfl, rfl, rfl, rfl, rfl, rfl, rfl, rfl,
    rfl, rfl, rfl, rfl, rfl, rfl, rfl, rfl, rfl, rfl, rfl, ?_⟩
  have h1' : (resetDownload s).progressInterval = some t := h1
  have h2' : (resetDownload s).currentDownloadId = some id := h2
  unfold tickRequest
  rw [if_pos h1', h2', Option.map_some']

/-- C10, witness: resetting during the `pollingState` loop keeps handle
0 polling `abc123`. -/
theorem c10_reset_witness :
    (resetDownload pollingState).dom.progressCardHidden = true ∧
    (resetDownload pollingState).dom.downloadErrorHidden = true ∧
    (resetDownload pollingState).dom.downloadBtnDisabled = false ∧
    (resetDownload pollingState).currentDownloadId =
      pollingState.currentDownloadId ∧
    (resetDownload pollingState).progressInterval =
      pollingState.progressInterval ∧
    (resetDownload pollingState).nextTimerId = pollingState.nextTimerId ∧
    (resetDownload pollingState).dom.videoInfoCardHidden =
      pollingState.dom.videoInfoCardHidden ∧
    (resetDownload pollingState).dom.formatsCardHidden =
      pollingState.dom.formatsCardHidden ∧
    (resetDownload pollingState).dom.downloadCompleteHidden =
      pollingState.dom.downloadCompleteHidden ∧
    (resetDownload pollingState).dom.progressContentHidden =
      pollingState.dom.progressContentHidden ∧
    (resetDownload pollingState).dom.fetchBtnDisabled =
      pollingState.dom.fetchBtnDisabled ∧
    (resetDownload pollingState).dom.downloadBtnDisplay =
      pollingState.dom.downloadBtnDisplay ∧
    (resetDownload pollingState).dom.formatRows =
      pollingState.dom.formatRows ∧
    (resetDownload pollingState).dom.noFormatsWarning =
      pollingState.dom.noFormatsWarning ∧
    (resetDownload pollingState).dom.completedFilename =
      pollingState.dom.completedFilename ∧
    (resetDownload pollingState).dom.errorMessage =
      pollingState.dom.errorMessage ∧
    (resetDownload pollingState).dom.alertMessage =
      pollingState.dom.alertMessage ∧
    (resetDownload pollingState).dom.progressPercentText =
      pollingState.dom.progressPercentText ∧
    (resetDownload pollingState).dom.progressSpeed =
      pollingState.dom.progressSpeed ∧
    (resetDownload pollingState).dom.fileSize =
      pollingState.dom.fileSize ∧
    (resetDownload pollingState).dom.eta = pollingState.dom.eta ∧
    (resetDownload pollingState).dom.statusMessage =
      pollingState.dom.statusMessage ∧
    (resetDownload pollingState).dom.currentFilename =
      pollingState.dom.currentFilename ∧
    (resetDownload pollingState).dom.progressBarColor =
      pollingState.dom.progressBarColor ∧
    tickRequest (resetDownload pollingState) 0 =
      some ("/progress/" ++ "abc123") :=
  c10_reset_is_cosmetic pollingState 0 "abc123" (by decide) (by decide)

/-- C7, witness: a whitespace URL and the bare initial state each
short-circuit locally. -/
theorem c7_local_validation_witness :
    (fetchFormatsBegin "   " state0).1 = none ∧
    ((fetchFormatsBegin "   " state0).2).dom.alertMessage =
      some "Error: Please enter a video URL" ∧
    (startDownloadBegin "https://example.com/v" state0).1 = none ∧
    ((startDownloadBegin "https://example.com/v" state0).2).dom.alertMessage =
      some "Error: Please select a format" :=
  c7_local_validation_no_request "   " "https://example.com/v" state0 state0
    (by decide) (by decide)

end Progress
